import Mathlib

/-!
Shallow embedding of the uptime-monitor engine (NewOlosko23/uptime).

Sources embedded here:
- src/src/models/Monitor.js        (runtime stats, updateStats)
- src/src/models/Incident.js       (incident record, addUpdate, resolve)
- src/unnamed/part_004             (Alert model: shouldTrigger, condition
                                    checks, trigger, getActiveChannels)
- src/src/services/monitoringService.js
                                   (pingServer, performHealthCheck,
                                    updateMonitorWithResult, handleMonitorDown,
                                    handleMonitorUp, triggerAlerts, triggerAlert)

JavaScript numbers are modelled as Nat / Int / Rat as appropriate; Math.round
is floor (x + 1/2) (JS rounds half toward positive infinity); JS Date values
are Nat milliseconds since epoch.  External effects (the network, the process
clock, the mail/WhatsApp collaborators) are passed in as explicit inputs.
-/

/-- JS Math.round on a rational: floor (q + 1/2); JS rounds .5 up (toward +inf). -/
def jsRound (q : ℚ) : ℤ := ⌊q + 1/2⌋

/-- Math.round (num / den) for natural num, den, computed in Nat arithmetic. -/
def roundHalfUpNat (num den : ℕ) : ℕ := (2 * num + den) / (2 * den)

/-- JS `a || b` for an optional string a: empty string and undefined are falsy. -/
def jsOrStr (a : Option String) (b : String) : String :=
  match a with
  | some s => if s = "" then b else s
  | none => b

/-- JS truthiness filter for an optional number: 0 and undefined are falsy. -/
def jsOptNat (a : Option Nat) : Option Nat :=
  match a with
  | some 0 => none
  | x => x

/-- String containment, modelling JS String.prototype.includes. -/
def containsSub (s pat : String) : Bool := decide (pat.toList <:+: s.toList)

/-- Leading-match test, modelling JS String.prototype.startsWith. -/
def startsWithStr (s pat : String) : Bool := decide (pat.toList <+: s.toList)

/-- Monitor status values (Monitor.js lastStatus enum). -/
inductive Status
  | up
  | down
  | unknown
deriving DecidableEq, Repr

/-- Monitor type enum (Monitor.js `type`). -/
inductive MonitorType
  | website
  | api
  | server
  | port
deriving DecidableEq, Repr

/-- The per-check monitor configuration fields the engine reads
(Monitor.js schema / getMonitoringConfig).  expectedStatus and
expectedResponseTime are optional: `none` models an unset (undefined/null)
field, and `jsOptNat` handles the 0-is-falsy JS checks. -/
structure MonitorConfig where
  name : String
  url : String
  type : MonitorType
  expectedStatus : Option Nat
  expectedResponseTime : Option Nat
  timeout : Nat
deriving DecidableEq, Repr

/-- Mutable monitoring stats of a monitor (Monitor.js schema, monitoring data
section).  `uptime` is the stored percentage, a JS float modelled as ℚ. -/
structure MonitorState where
  lastCheck : Nat
  lastStatus : Status
  lastResponseTime : Nat
  lastStatusCode : Nat
  totalChecks : Nat
  successfulChecks : Nat
  failedChecks : Nat
  averageResponseTime : Nat
  uptime : ℚ
deriving DecidableEq, Repr

/-- A freshly created monitor document (Monitor.js schema defaults). -/
def mkMonitorState : MonitorState where
  lastCheck := 0
  lastStatus := Status.unknown
  lastResponseTime := 0
  lastStatusCode := 0
  totalChecks := 0
  successfulChecks := 0
  failedChecks := 0
  averageResponseTime := 0
  uptime := 0

/-- Virtual uptimePercentage (Monitor.js 174-177):
`Math.round((successfulChecks / totalChecks) * 100 * 100) / 100`, 0 when
totalChecks = 0. -/
def uptimePercentage (successfulChecks totalChecks : Nat) : ℚ :=
  if totalChecks = 0 then 0
  else (roundHalfUpNat (successfulChecks * 10000) totalChecks : ℚ) / 100

/-- updateStats (Monitor.js 180-202): bump counters, set last* fields, and
recompute the running average response time as
`Math.round((averageResponseTime * (totalChecks - 1) + responseTime) / totalChecks)`
over the post-increment totalChecks. -/
def updateStats (m : MonitorState) (isSuccess : Bool)
    (responseTime statusCode now : Nat) : MonitorState :=
  let total := m.totalChecks + 1
  let succ := if isSuccess then m.successfulChecks + 1 else m.successfulChecks
  let fail := if isSuccess then m.failedChecks else m.failedChecks + 1
  let totalResponseTime := m.averageResponseTime * (total - 1) + responseTime
  { lastCheck := now
    lastStatus := if isSuccess then Status.up else Status.down
    lastResponseTime := responseTime
    lastStatusCode := statusCode
    totalChecks := total
    successfulChecks := succ
    failedChecks := fail
    averageResponseTime := roundHalfUpNat totalResponseTime total
    uptime := uptimePercentage succ total }

/-- Incident status enum (Incident.js). -/
inductive IncidentStatus
  | investigating
  | identified
  | monitoring
  | resolved
deriving DecidableEq, Repr

/-- One entry of an incident's updates array (Incident.js schema). -/
structure IncidentUpdate where
  status : IncidentStatus
  message : String
  timestamp : Nat
  isPublic : Bool
deriving DecidableEq, Repr

/-- Incident document (Incident.js schema), restricted to the fields the
engine reads or writes; the monitor/user object ids are left implicit because
the pipeline state below tracks the incidents of a single monitor.
`duration` is in minutes and may be negative in JS if the clock ran backwards,
hence ℤ. -/
structure Incident where
  type : String
  severity : String
  title : String
  description : String
  startedAt : Nat
  resolvedAt : Option Nat
  duration : ℤ
  status : IncidentStatus
  updates : List IncidentUpdate
deriving DecidableEq, Repr

/-- addUpdate (Incident.js 132-148): push the update, adopt its status, and on
`resolved` set resolvedAt and `duration = Math.round((resolvedAt - startedAt) / 60000)`. -/
def Incident.addUpdate (inc : Incident) (status : IncidentStatus)
    (message : String) (isPublic : Bool) (now : Nat) : Incident :=
  let inc1 : Incident :=
    { inc with
      updates := inc.updates ++ [{ status := status, message := message,
                                   timestamp := now, isPublic := isPublic }]
      status := status }
  if status = IncidentStatus.resolved then
    { inc1 with
      resolvedAt := some now
      duration := jsRound (((now : ℚ) - (inc.startedAt : ℚ)) / 60000) }
  else inc1

/-- resolve (Incident.js 151-153): addUpdate with status `resolved` and the
given message (or the default when the message is falsy). -/
def Incident.resolve (inc : Incident) (resolutionMessage : String) (now : Nat) : Incident :=
  Incident.addUpdate inc IncidentStatus.resolved
    (if resolutionMessage = "" then "Incident has been resolved" else resolutionMessage)
    true now

/-- Open-incident test used by handleMonitorUp's query
`status: { $in: ['investigating', 'identified', 'monitoring'] }`. -/
def isOpen (inc : Incident) : Bool :=
  inc.status = IncidentStatus.investigating ∨
  inc.status = IncidentStatus.identified ∨
  inc.status = IncidentStatus.monitoring

/-- Number of open incidents in a list. -/
def openCount (l : List Incident) : Nat := (l.filter isOpen).length

/-- Incident.findOne on the open statuses followed by resolve: resolve the
first open incident of the list, leaving everything else unchanged
(monitoringService.js 598-605). -/
def resolveFirstOpen : List Incident → String → Nat → List Incident
  | [], _, _ => []
  | inc :: rest, msg, now =>
    if isOpen inc then Incident.resolve inc msg now :: rest
    else inc :: resolveFirstOpen rest msg now

/-- Alert type enum (part_004 Alert schema). -/
inductive AlertType
  | downtime
  | uptime
  | slow_response
  | ssl_expiry
  | custom
deriving DecidableEq, Repr

/-- Alert lifecycle status (part_004 Alert schema). -/
inductive AlertStatus
  | active
  | paused
  | disabled
deriving DecidableEq, Repr

/-- Custom-condition observed field (part_004 conditions.customCondition). -/
inductive CustomCondition
  | status_code
  | response_time
  | response_size
  | content_check
deriving DecidableEq, Repr

/-- Custom-condition operator (part_004 conditions.customOperator). -/
inductive CustomOperator
  | equals
  | not_equals
  | greater_than
  | less_than
  | contains
  | not_contains
deriving DecidableEq, Repr

/-- Alert trigger thresholds (part_004 conditions sub-document). -/
structure AlertConditions where
  downtimeThreshold : Nat
  responseTimeThreshold : Nat
  sslExpiryDays : Nat
  customCondition : CustomCondition
  customValue : Option String
  customOperator : CustomOperator
deriving DecidableEq, Repr

/-- The email channel, the only channel in the Alert schema (part_004 59-74);
recipients is the list of recipient addresses. -/
structure EmailChannel where
  enabled : Bool
  recipients : List String
deriving DecidableEq, Repr

/-- Alert schedule window (part_004 schedule sub-document). `none` for
startTime/endTime models an absent field. -/
structure AlertSchedule where
  enabled : Bool
  timezone : String
  days : List String
  startTime : Option String
  endTime : Option String
deriving DecidableEq, Repr

/-- One alert history entry (part_004 history array). -/
structure HistoryEntry where
  triggeredAt : Nat
  type : String
  message : String
  channels : List String
  success : Bool
  error : Option String
deriving DecidableEq, Repr

/-- Alert document (part_004 schema), restricted to the fields the engine
reads or writes. -/
structure Alert where
  name : String
  type : AlertType
  conditions : AlertConditions
  emailChannel : EmailChannel
  schedule : AlertSchedule
  status : AlertStatus
  lastTriggered : Option Nat
  triggerCount : Nat
  history : List HistoryEntry
deriving DecidableEq, Repr

/-- The monitorData object passed to shouldTrigger.  The optional fields are
never supplied by triggerAlerts (monitoringService.js 625-631); `none` models
a JS `undefined` property. -/
structure AlertMonitorData where
  lastStatus : Status
  lastResponseTime : Nat
  lastStatusCode : Nat
  consecutiveFailures : Nat
  consecutiveSuccesses : Nat
  sslExpiry : Option Nat
  lastResponseSize : Option Nat
  lastResponseContent : Option String
deriving DecidableEq, Repr

/-- The wall-clock facts the alert layer reads: Date.now() in ms, the current
weekday name (lowercased, en-US) and the current HH:MM time string. -/
structure Clock where
  now : Nat
  weekday : String
  hhmm : String
deriving DecidableEq, Repr

/-- isWithinSchedule (part_004 173-189): day must be listed; when both
startTime and endTime are truthy strings, the HH:MM string must fall in the
inclusive range (JS string comparison = lexicographic, sound for HH:MM). -/
def Alert.isWithinSchedule (a : Alert) (clock : Clock) : Bool :=
  if !a.schedule.enabled then true
  else if !(a.schedule.days.contains clock.weekday) then false
  else
    match jsOrStr a.schedule.startTime "", jsOrStr a.schedule.endTime "" with
    | "", _ => true
    | _, "" => true
    | s, e => decide (s ≤ clock.hhmm) && decide (clock.hhmm ≤ e)

/-- checkDowntimeCondition (part_004 192-195). -/
def Alert.checkDowntimeCondition (a : Alert) (d : AlertMonitorData) : Bool :=
  d.lastStatus = Status.down ∧ d.consecutiveFailures ≥ a.conditions.downtimeThreshold

/-- checkUptimeCondition (part_004 198-201); note the source compares
consecutiveSuccesses against downtimeThreshold. -/
def Alert.checkUptimeCondition (a : Alert) (d : AlertMonitorData) : Bool :=
  d.lastStatus = Status.up ∧ d.consecutiveSuccesses ≥ a.conditions.downtimeThreshold

/-- checkSlowResponseCondition (part_004 204-206). -/
def Alert.checkSlowResponseCondition (a : Alert) (d : AlertMonitorData) : Bool :=
  d.lastResponseTime > a.conditions.responseTimeThreshold

/-- checkSSLExpiryCondition (part_004 209-216): false when sslExpiry is
undefined; otherwise compare `Math.ceil((expiry - now) / 86400000)` days. -/
def Alert.checkSSLExpiryCondition (a : Alert) (d : AlertMonitorData) (now : Nat) : Bool :=
  match d.sslExpiry with
  | none => false
  | some expiry =>
    ⌈(((expiry : ℚ) - (now : ℚ)) / 86400000)⌉ ≤ (a.conditions.sslExpiryDays : ℤ)

/-- A JS value observed by the custom condition: a number, a string, or
undefined. -/
inductive JSVal
  | num (n : Nat)
  | str (s : String)
  | undef
deriving DecidableEq, Repr

/-- JS Number(s) for plain decimal strings; `none` models NaN. -/
def jsToNum (s : String) : Option Nat := s.toNat?

/-- JS String(v); String(undefined) is the text "undefined". -/
def jsStringOf (v : JSVal) : String :=
  match v with
  | JSVal.num n => toString n
  | JSVal.str s => s
  | JSVal.undef => "undefined"

/-- JS loose equality `==` between the observed value and the configured
string (or undefined), restricted to the shapes the custom check produces:
a number equals a string that coerces to it, strings compare as strings, and
undefined equals only undefined. -/
def jsLooseEq (v : JSVal) (e : Option String) : Bool :=
  match v, e with
  | JSVal.num n, some s => jsToNum s = some n
  | JSVal.num _, none => false
  | JSVal.str s, some t => s = t
  | JSVal.str _, none => false
  | JSVal.undef, none => true
  | JSVal.undef, some _ => false

/-- evaluateCondition (part_004 244-261).  Ordered comparisons coerce the
configured string to a number when the observed value is a number (false on
NaN, as in JS), and compare lexicographically between strings. -/
def Alert.evaluateCondition (actual : JSVal) (expected : Option String)
    (op : CustomOperator) : Bool :=
  match op with
  | CustomOperator.equals => jsLooseEq actual expected
  | CustomOperator.not_equals => !jsLooseEq actual expected
  | CustomOperator.greater_than =>
    match actual, expected.bind jsToNum with
    | JSVal.num n, some m => n > m
    | JSVal.str s, _ =>
      match expected with
      | some t => decide (t < s)
      | none => false
    | _, _ => false
  | CustomOperator.less_than =>
    match actual, expected.bind jsToNum with
    | JSVal.num n, some m => n < m
    | JSVal.str s, _ =>
      match expected with
      | some t => decide (s < t)
      | none => false
    | _, _ => false
  | CustomOperator.contains =>
    containsSub (jsStringOf actual) (jsOrStr expected "undefined")
  | CustomOperator.not_contains =>
    !containsSub (jsStringOf actual) (jsOrStr expected "undefined")

/-- checkCustomCondition (part_004 219-241). -/
def Alert.checkCustomCondition (a : Alert) (d : AlertMonitorData) : Bool :=
  let actual : JSVal :=
    match a.conditions.customCondition with
    | CustomCondition.status_code => JSVal.num d.lastStatusCode
    | CustomCondition.response_time => JSVal.num d.lastResponseTime
    | CustomCondition.response_size =>
      match d.lastResponseSize with
      | some n => JSVal.num n
      | none => JSVal.undef
    | CustomCondition.content_check =>
      match d.lastResponseContent with
      | some s => JSVal.str s
      | none => JSVal.undef
  Alert.evaluateCondition actual a.conditions.customValue a.conditions.customOperator

/-- shouldTrigger (part_004 148-170). -/
def Alert.shouldTrigger (a : Alert) (d : AlertMonitorData) (clock : Clock) : Bool :=
  if a.status ≠ AlertStatus.active then false
  else if a.schedule.enabled && !(a.isWithinSchedule clock) then false
  else
    match a.type with
    | AlertType.downtime => a.checkDowntimeCondition d
    | AlertType.uptime => a.checkUptimeCondition d
    | AlertType.slow_response => a.checkSlowResponseCondition d
    | AlertType.ssl_expiry => a.checkSSLExpiryCondition d clock.now
    | AlertType.custom => a.checkCustomCondition d

/-- getActiveChannels (part_004 292-301): only the email channel exists in
the schema, pushed when enabled with at least one recipient. -/
def Alert.getActiveChannels (a : Alert) : List String :=
  if a.emailChannel.enabled && a.emailChannel.recipients.length > 0 then ["email"]
  else []

/-- trigger (part_004 264-289): stamp lastTriggered, bump triggerCount,
append a history entry with `success: true` and no error, keep only the last
100 entries, and return the active channel list. -/
def Alert.trigger (a : Alert) (monitorName message : String) (now : Nat) :
    Alert × List String :=
  let msg := if message = "" then a.name ++ " triggered for " ++ monitorName else message
  let entry : HistoryEntry :=
    { triggeredAt := now, type := "alert", message := msg,
      channels := a.getActiveChannels, success := true, error := none }
  let h := a.history ++ [entry]
  let h := if h.length > 100 then h.drop (h.length - 100) else h
  ({ a with
     lastTriggered := some now
     triggerCount := a.triggerCount + 1
     history := h },
   a.getActiveChannels)

/-- Result record returned by pingServer (monitoringService.js 95-104, 131-136). -/
structure PingResult where
  success : Bool
  responseTime : Nat
  output : String
  error : Option String
deriving DecidableEq, Repr

/-- What the operating system did for the one ping invocation: either the
exec completed with the given stdout/stderr after `elapsed` ms (with the
`time=` value the source regex would extract, if any), or exec threw with the
given message.  `fallbackStatus`/`fallbackElapsed` describe what a HEAD
request to the target would return (its HTTP status, any status counts as
success) — consulted only on the throw path for http(s) targets. -/
inductive PingExec
  | completed (stdout stderr : String) (elapsed : Nat) (parsedTime : Option Nat)
  | threw (message : String) (elapsed : Nat)
      (fallbackStatus : Option Nat) (fallbackElapsed : Nat)
deriving DecidableEq, Repr

/-- Success detection for a completed Unix ping (monitoringService.js 74-93,
Linux branch): stdout must report the packet received, stderr must be empty,
and the failure patterns must be absent. -/
def unixPingSuccess (stdout stderr : String) : Bool :=
  ((containsSub stdout "1 received" ||
    containsSub stdout "1 packets transmitted, 1 received") &&
   stderr = "" &&
   !containsSub stdout "100% packet loss" &&
   !containsSub stdout "Network is unreachable") &&
  !(containsSub stdout "Name or service not known" ||
    containsSub stdout "Temporary failure in name resolution" ||
    containsSub stdout "ping: cannot resolve")

/-- pingServer (monitoringService.js 17-138, Linux path): never throws — a
completed exec is classified by its output, and a thrown exec is caught,
optionally rescued by the HTTP HEAD fallback for http(s) targets, and
otherwise reported as a failed PingResult carrying the error message. -/
def pingServer (host : String) (ex : PingExec) : PingResult :=
  match ex with
  | PingExec.completed stdout stderr elapsed parsedTime =>
    let ok := unixPingSuccess stdout stderr
    { success := ok
      responseTime := parsedTime.getD elapsed
      output := stdout
      error := if ok then none
               else some (if stderr = "" then "Ping failed - no response received" else stderr) }
  | PingExec.threw message elapsed fallbackStatus fallbackElapsed =>
    let errorMessage := if message = "" then "Unknown ping error" else message
    if startsWithStr host "http://" || startsWithStr host "https://" then
      match fallbackStatus with
      | some st =>
        { success := true
          responseTime := fallbackElapsed
          output := "HTTP fallback successful: " ++ toString st
          error := none }
      | none =>
        { success := false, responseTime := elapsed, output := "", error := some errorMessage }
    else
      { success := false, responseTime := elapsed, output := "", error := some errorMessage }

/-- The result record built by performHealthCheck (monitoringService.js
352-360 and onward): one per probe execution. -/
structure CheckResult where
  success : Bool
  responseTime : Nat
  statusCode : Nat
  status : Status
  error : Option String
  timestamp : Nat
deriving DecidableEq, Repr

/-- What the network did for the one axios request: a raw HTTP response with
its status and elapsed time, or an exception thrown inside the try block
(network/DNS/TLS/timeout failure, invalid URL, ...) carrying error.message.
Because the request sets `validateStatus: status < 500`, axios itself rejects
a completed exchange with status >= 500; that rejection is produced by the
model in `httpHealthCheck`, not listed here. -/
inductive HttpProbe
  | response (statusCode responseTime : Nat)
  | networkError (message : String) (responseTime : Nat)
deriving DecidableEq, Repr

/-- The axios rejection message for a response failing validateStatus. -/
def axiosStatusMessage (code : Nat) : String :=
  "Request failed with status code " ++ toString code

/-- The catch branch of performHealthCheck (monitoringService.js 488-499):
statusCode is `error.response?.status || 0`. -/
def httpCatchResult (message : String) (statusCode responseTime now : Nat) : CheckResult :=
  { success := false
    responseTime := responseTime
    statusCode := statusCode
    status := Status.down
    error := some message
    timestamp := now }

/-- The website/api branch of performHealthCheck (monitoringService.js
413-499): a response below 500 is initially `up`, then the expectedStatus and
expectedResponseTime checks each flip the result to `down` and overwrite the
error; a response of 500 or above is rejected by axios (validateStatus) and
lands in the catch branch, as does any network error. -/
def httpHealthCheck (cfg : MonitorConfig) (probe : HttpProbe) (now : Nat) : CheckResult :=
  match probe with
  | HttpProbe.networkError message responseTime =>
    httpCatchResult message 0 responseTime now
  | HttpProbe.response code responseTime =>
    if code < 500 then
      let r0 : CheckResult :=
        { success := true, responseTime := responseTime, statusCode := code,
          status := Status.up, error := none, timestamp := now }
      let r1 :=
        match jsOptNat cfg.expectedStatus with
        | some es =>
          if code ≠ es then
            { r0 with
              success := false
              status := Status.down
              error := some ("Expected status " ++ toString es ++ ", got " ++ toString code) }
          else r0
        | none => r0
      match jsOptNat cfg.expectedResponseTime with
      | some ert =>
        if responseTime > ert then
          { r1 with
            success := false
            status := Status.down
            error := some ("Response time " ++ toString responseTime ++
                           "ms exceeds expected " ++ toString ert ++ "ms") }
        else r1
      | none => r1
    else
      httpCatchResult (axiosStatusMessage code) code responseTime now

/-- What the outside world would answer this check: the ping outcome (read
when cfg.type = server) and the HTTP outcome (read otherwise). -/
structure ProbeEnv where
  ping : PingExec
  http : HttpProbe
deriving DecidableEq, Repr

/-- performHealthCheck (monitoringService.js 351-505), the pure core mapping
one probe outcome to a CheckResult.  The server branch (364-382) classifies
the ping and then applies the expectedResponseTime check; the port branch
(384-411) issues the HTTP request with validateStatus < 500 and applies no
expectation checks; the website/api branch is `httpHealthCheck`.  Every
branch, including every thrown error, produces a CheckResult: the function is
total. -/
def performHealthCheck (cfg : MonitorConfig) (env : ProbeEnv) (now : Nat) : CheckResult :=
  match cfg.type with
  | MonitorType.server =>
    let pr := pingServer cfg.url env.ping
    let r0 : CheckResult :=
      { success := pr.success
        responseTime := pr.responseTime
        statusCode := if pr.success then 200 else 0
        status := if pr.success then Status.up else Status.down
        error := pr.error
        timestamp := now }
    match jsOptNat cfg.expectedResponseTime with
    | some ert =>
      if pr.responseTime > ert then
        { r0 with
          success := false
          status := Status.down
          error := some ("Response time " ++ toString pr.responseTime ++
                         "ms exceeds expected " ++ toString ert ++ "ms") }
      else r0
    | none => r0
  | MonitorType.port =>
    match env.http with
    | HttpProbe.networkError message responseTime =>
      httpCatchResult message 0 responseTime now
    | HttpProbe.response code responseTime =>
      if code < 500 then
        { success := true, responseTime := responseTime, statusCode := code,
          status := Status.up, error := none, timestamp := now }
      else
        httpCatchResult (axiosStatusMessage code) code responseTime now
  | _ => httpHealthCheck cfg env.http now

/-- The engine state for one monitor: its config snapshot, its runtime stats
document, the incidents stored for it, and its alert rules. -/
structure SystemState where
  cfg : MonitorConfig
  monitor : MonitorState
  incidents : List Incident
  alerts : List Alert
deriving DecidableEq, Repr

/-- A freshly created monitor with no incidents and the given alert rules. -/
def mkSystemState (cfg : MonitorConfig) (alerts : List Alert) : SystemState where
  cfg := cfg
  monitor := mkMonitorState
  incidents := []
  alerts := alerts

/-- triggerAlerts (monitoringService.js 617-638): for each alert rule of the
monitor with status active, evaluate shouldTrigger on the ad-hoc monitorData
object — note the hardcoded `consecutiveFailures: status === 'down' ? 1 : 0`
and `consecutiveSuccesses: status === 'up' ? 1 : 0` — and fire the matching
ones via Alert.trigger. -/
def triggerAlertsStep (st : SystemState) (statusParam : Status) (clock : Clock) :
    SystemState :=
  let d : AlertMonitorData :=
    { lastStatus := statusParam
      lastResponseTime := st.monitor.lastResponseTime
      lastStatusCode := st.monitor.lastStatusCode
      consecutiveFailures := if statusParam = Status.down then 1 else 0
      consecutiveSuccesses := if statusParam = Status.up then 1 else 0
      sslExpiry := none
      lastResponseSize := none
      lastResponseContent := none }
  { st with
    alerts := st.alerts.map fun a =>
      if a.status = AlertStatus.active && a.shouldTrigger d clock then
        (a.trigger st.cfg.name (a.name ++ " triggered for " ++ st.cfg.name) clock.now).1
      else a }

/-- The incident document created by handleMonitorDown (monitoringService.js
575-583): type downtime, default severity, `investigating`, startedAt = now,
description = `result.error || default`. -/
def downIncident (cfg : MonitorConfig) (result : CheckResult) (now : Nat) : Incident where
  type := "downtime"
  severity := "medium"
  title := cfg.name ++ " is down"
  description := jsOrStr result.error ("Monitor " ++ cfg.name ++ " is not responding")
  startedAt := now
  resolvedAt := none
  duration := 0
  status := IncidentStatus.investigating
  updates := []

/-- handleMonitorDown (monitoringService.js 572-592): unconditionally create
a new `investigating` incident for the monitor and trigger the down alerts. -/
def handleMonitorDown (st : SystemState) (result : CheckResult) (clock : Clock) :
    SystemState :=
  triggerAlertsStep
    { st with incidents := st.incidents ++ [downIncident st.cfg result clock.now] }
    Status.down clock

/-- handleMonitorUp (monitoringService.js 595-614): resolve the first open
incident of the monitor, if any, then trigger the up alerts. -/
def handleMonitorUp (st : SystemState) (clock : Clock) : SystemState :=
  triggerAlertsStep
    { st with incidents := resolveFirstOpen st.incidents "Monitor is back online" clock.now }
    Status.up clock

/-- updateMonitorWithResult (monitoringService.js 508-569): remember whether
the monitor was up, update its stats, then run the down/up transition
handlers exactly on edges of the `wasUp`/`isUp` pair.  Persisting the check
result (storeCheckResult) has no effect on this state and its failure is
swallowed, so it is not modelled. -/
def updateMonitorWithResult (st : SystemState) (result : CheckResult) (clock : Clock) :
    SystemState :=
  let wasUp := st.monitor.lastStatus = Status.up
  let isUp := result.success
  let st1 : SystemState :=
    { st with monitor := updateStats st.monitor result.success
                           result.responseTime result.statusCode clock.now }
  if wasUp && !isUp then handleMonitorDown st1 result clock
  else if !wasUp && isUp then handleMonitorUp st1 clock
  else st1

/-- Run the state-and-incident pipeline over a sequence of check results. -/
def runChecks (st : SystemState) (checks : List (CheckResult × Clock)) : SystemState :=
  checks.foldl (fun s rc => updateMonitorWithResult s rc.1 rc.2) st

/-- triggerAlert (monitoringService.js 641-665): fire the alert (which logs
the history entry and returns the channel list), then dispatch each listed
channel to its external collaborator; dE and dW are the outcomes the email
and WhatsApp collaborators would return.  Promise.allSettled semantics: every
channel is dispatched and the function returns normally whatever the
outcomes. -/
def triggerAlertDispatch (alert : Alert) (monitorName : String)
    (dE dW : Except String Unit) (now : Nat) :
    Alert × List (String × Except String Unit) :=
  let res := alert.trigger monitorName (alert.name ++ " triggered for " ++ monitorName) now
  let outcomes :=
    (if res.2.contains "email" then [("email", dE)] else []) ++
    (if res.2.contains "whatsapp" then [("whatsapp", dW)] else [])
  (res.1, outcomes)

/-! Basic facts about the pipeline step. -/

theorem triggerAlertsStep_incidents (st : SystemState) (s : Status) (c : Clock) :
    (triggerAlertsStep st s c).incidents = st.incidents := rfl

theorem triggerAlertsStep_monitor (st : SystemState) (s : Status) (c : Clock) :
    (triggerAlertsStep st s c).monitor = st.monitor := rfl

theorem handleMonitorDown_incidents (st : SystemState) (r : CheckResult) (c : Clock) :
    (handleMonitorDown st r c).incidents = st.incidents ++ [downIncident st.cfg r c.now] := rfl

theorem handleMonitorUp_incidents (st : SystemState) (c : Clock) :
    (handleMonitorUp st c).incidents =
      resolveFirstOpen st.incidents "Monitor is back online" c.now := rfl

theorem uMWR_case_down (st : SystemState) (r : CheckResult) (c : Clock)
    (h1 : st.monitor.lastStatus = Status.up) (h2 : r.success = false) :
    updateMonitorWithResult st r c =
      handleMonitorDown
        { st with monitor := updateStats st.monitor r.success r.responseTime r.statusCode c.now }
        r c := by
  simp [updateMonitorWithResult, h1, h2]

theorem uMWR_case_up (st : SystemState) (r : CheckResult) (c : Clock)
    (h1 : st.monitor.lastStatus ≠ Status.up) (h2 : r.success = true) :
    updateMonitorWithResult st r c =
      handleMonitorUp
        { st with monitor := updateStats st.monitor r.success r.responseTime r.statusCode c.now }
        c := by
  simp [updateMonitorWithResult, h1, h2]

theorem uMWR_case_stay_up (st : SystemState) (r : CheckResult) (c : Clock)
    (h1 : st.monitor.lastStatus = Status.up) (h2 : r.success = true) :
    updateMonitorWithResult st r c =
      { st with monitor := updateStats st.monitor r.success r.responseTime r.statusCode c.now } := by
  simp [updateMonitorWithResult, h1, h2]

theorem uMWR_case_stay_down (st : SystemState) (r : CheckResult) (c : Clock)
    (h1 : st.monitor.lastStatus ≠ Status.up) (h2 : r.success = false) :
    updateMonitorWithResult st r c =
      { st with monitor := updateStats st.monitor r.success r.responseTime r.statusCode c.now } := by
  simp [updateMonitorWithResult, h1, h2]

theorem uMWR_monitor (st : SystemState) (r : CheckResult) (c : Clock) :
    (updateMonitorWithResult st r c).monitor =
      updateStats st.monitor r.success r.responseTime r.statusCode c.now := by
  by_cases h1 : st.monitor.lastStatus = Status.up <;> cases h2 : r.success
  · rw [uMWR_case_down st r c h1 h2, handleMonitorDown, triggerAlertsStep_monitor]
    rw [h2]
  · rw [uMWR_case_stay_up st r c h1 h2]
    rw [h2]
  · rw [uMWR_case_stay_down st r c h1 h2]
    rw [h2]
  · rw [uMWR_case_up st r c h1 h2, handleMonitorUp, triggerAlertsStep_monitor]
    rw [h2]

theorem updateStats_lastStatus (m : MonitorState) (b : Bool) (rt sc t : Nat) :
    (updateStats m b rt sc t).lastStatus = if b then Status.up else Status.down := rfl

theorem isOpen_downIncident (cfg : MonitorConfig) (r : CheckResult) (t : Nat) :
    isOpen (downIncident cfg r t) = true := rfl

theorem isOpen_resolve_false (inc : Incident) (msg : String) (now : Nat) :
    isOpen (Incident.resolve inc msg now) = false := by
  simp [Incident.resolve, Incident.addUpdate, isOpen]

theorem openCount_append_single (l : List Incident) (i : Incident) :
    openCount (l ++ [i]) = openCount l + (if isOpen i then 1 else 0) := by
  simp [openCount, List.filter_append, List.filter_cons]
  by_cases h : isOpen i <;> simp [h]

theorem openCount_resolveFirstOpen (msg : String) (now : Nat) :
    ∀ l : List Incident, openCount (resolveFirstOpen l msg now) = openCount l - 1 := by
  intro l
  induction l with
  | nil => rfl
  | cons inc rest ih =>
    by_cases h : isOpen inc
    · simp [resolveFirstOpen, h, openCount, List.filter_cons, isOpen_resolve_false]
    · simp [resolveFirstOpen, h, openCount, List.filter_cons] at ih ⊢
      exact ih

/-- The incident invariant maintained by the pipeline: a monitor has no open
incident, or exactly one and it is currently down. -/
def IncInv (st : SystemState) : Prop :=
  openCount st.incidents = 0 ∨
  (openCount st.incidents = 1 ∧ st.monitor.lastStatus = Status.down)

theorem incInv_step (st : SystemState) (r : CheckResult) (c : Clock) (h : IncInv st) :
    IncInv (updateMonitorWithResult st r c) := by
  by_cases h1 : st.monitor.lastStatus = Status.up <;> cases h2 : r.success
  · -- up → down edge: a fresh open incident is created
    have h0 : openCount st.incidents = 0 := by
      rcases h with h | ⟨_, hd⟩
      · exact h
      · rw [h1] at hd; cases hd
    rw [uMWR_case_down st r c h1 h2]
    right
    refine ⟨?_, ?_⟩
    · rw [handleMonitorDown_incidents]
      show openCount (st.incidents ++ [downIncident st.cfg r c.now]) = 1
      rw [openCount_append_single, h0, isOpen_downIncident]
      simp
    · show (updateStats st.monitor r.success r.responseTime r.statusCode c.now).lastStatus =
        Status.down
      rw [updateStats_lastStatus, h2]
      rfl
  · -- up → up: nothing changes in the incident list
    have h0 : openCount st.incidents = 0 := by
      rcases h with h | ⟨_, hd⟩
      · exact h
      · rw [h1] at hd; cases hd
    rw [uMWR_case_stay_up st r c h1 h2]
    exact Or.inl h0
  · -- not-up → down: the incident list is untouched
    rw [uMWR_case_stay_down st r c h1 h2]
    rcases h with h | ⟨hc, _⟩
    · exact Or.inl h
    · refine Or.inr ⟨hc, ?_⟩
      show (updateStats st.monitor r.success r.responseTime r.statusCode c.now).lastStatus =
        Status.down
      rw [updateStats_lastStatus, h2]
      rfl
  · -- not-up → up: the first open incident, if any, is resolved
    rw [uMWR_case_up st r c h1 h2]
    left
    rw [handleMonitorUp_incidents]
    show openCount (resolveFirstOpen st.incidents "Monitor is back online" c.now) = 0
    rw [openCount_resolveFirstOpen]
    rcases h with h | ⟨hc, _⟩ <;> omega

theorem incInv_runChecks (checks : List (CheckResult × Clock)) :
    ∀ st : SystemState, IncInv st → IncInv (runChecks st checks) := by
  induction checks with
  | nil => intro st h; exact h
  | cons rc rest ih =>
    intro st h
    rw [show runChecks st (rc :: rest) =
          runChecks (updateMonitorWithResult st rc.1 rc.2) rest from rfl]
    exact ih _ (incInv_step st rc.1 rc.2 h)

/-- C1: for every monitor and every sequence of up/down verdicts processed by
the pipeline (probe result, then updateMonitorWithResult, then
handleMonitorDown/handleMonitorUp), at most one open incident (status in
investigating/identified/monitoring) exists for that monitor at any time; in
particular a down-transition never creates a second open incident, because a
down-transition requires lastStatus = up, and the maintained invariant shows
the open-incident count is then zero. -/
theorem at_most_one_open_incident (cfg : MonitorConfig) (alerts : List Alert)
    (checks : List (CheckResult × Clock)) :
    openCount (runChecks (mkSystemState cfg alerts) checks).incidents ≤ 1 := by
  have h := incInv_runChecks checks (mkSystemState cfg alerts) (Or.inl rfl)
  rcases h with h | ⟨h, _⟩ <;> omega

theorem updateStats_counts (m : MonitorState) (b : Bool) (rt sc t : Nat)
    (h : m.totalChecks = m.successfulChecks + m.failedChecks) :
    (updateStats m b rt sc t).totalChecks =
      (updateStats m b rt sc t).successfulChecks + (updateStats m b rt sc t).failedChecks := by
  cases b <;> simp [updateStats] <;> omega

theorem counts_runChecks (checks : List (CheckResult × Clock)) :
    ∀ st : SystemState,
      st.monitor.totalChecks = st.monitor.successfulChecks + st.monitor.failedChecks →
      (runChecks st checks).monitor.totalChecks =
        (runChecks st checks).monitor.successfulChecks +
          (runChecks st checks).monitor.failedChecks := by
  induction checks with
  | nil => intro st h; exact h
  | cons rc rest ih =>
    intro st h
    rw [show runChecks st (rc :: rest) =
          runChecks (updateMonitorWithResult st rc.1 rc.2) rest from rfl]
    refine ih _ ?_
    rw [uMWR_monitor]
    exact updateStats_counts st.monitor rc.1.success rc.1.responseTime rc.1.statusCode
      rc.2.now h

/-- C4: for every monitor and every finite sequence of checks recorded via
updateStats with an up or down outcome, totalChecks =
successfulChecks + failedChecks holds afterwards: every check increments
totalChecks by one and exactly one of the two outcome counters by one. -/
theorem totalChecks_eq_separate_counts (cfg : MonitorConfig) (alerts : List Alert)
    (checks : List (CheckResult × Clock)) :
    (runChecks (mkSystemState cfg alerts) checks).monitor.totalChecks =
      (runChecks (mkSystemState cfg alerts) checks).monitor.successfulChecks +
        (runChecks (mkSystemState cfg alerts) checks).monitor.failedChecks :=
  counts_runChecks checks (mkSystemState cfg alerts) rfl

/-- C10: every updateStats call sets lastStatus to exactly up (success) or
down (failure), so after at least one recorded check the monitor's lastStatus
is never unknown again: unknown is only the pre-first-check initial state. -/
theorem lastStatus_up_or_down_after_checks (st : SystemState)
    (checks : List (CheckResult × Clock)) (h : checks ≠ []) :
    (runChecks st checks).monitor.lastStatus = Status.up ∨
      (runChecks st checks).monitor.lastStatus = Status.down := by
  induction checks generalizing st with
  | nil => exact absurd rfl h
  | cons rc rest ih =>
    rw [show runChecks st (rc :: rest) =
          runChecks (updateMonitorWithResult st rc.1 rc.2) rest from rfl]
    cases rest with
    | nil =>
      rw [show runChecks (updateMonitorWithResult st rc.1 rc.2) [] =
            updateMonitorWithResult st rc.1 rc.2 from rfl]
      rw [uMWR_monitor, updateStats_lastStatus]
      cases rc.1.success <;> simp
    | cons rc2 rest2 => exact ih _ (by simp)

/-! Concrete inputs used by witnesses and counterexamples. -/

def cfgW : MonitorConfig where
  name := "M"
  url := "https://example.com"
  type := MonitorType.website
  expectedStatus := some 200
  expectedResponseTime := some 5000
  timeout := 30

def clockW (t : Nat) : Clock where
  now := t
  weekday := "monday"
  hhmm := "12:00"

def upResult (t : Nat) : CheckResult where
  success := true
  responseTime := 80
  statusCode := 200
  status := Status.up
  error := none
  timestamp := t

def downResult (t : Nat) : CheckResult where
  success := false
  responseTime := 0
  statusCode := 0
  status := Status.down
  error := some "connect ECONNREFUSED"
  timestamp := t

def stUpW : SystemState where
  cfg := cfgW
  monitor := { mkMonitorState with lastStatus := Status.up }
  incidents := []
  alerts := []

theorem lastStatus_up_or_down_after_checks_witness :
    ([(upResult 1, clockW 1)] ≠ ([] : List (CheckResult × Clock))) ∧
    ((runChecks (mkSystemState cfgW []) [(upResult 1, clockW 1)]).monitor.lastStatus = Status.up ∨
     (runChecks (mkSystemState cfgW []) [(upResult 1, clockW 1)]).monitor.lastStatus =
       Status.down) :=
  ⟨by simp,
   lastStatus_up_or_down_after_checks (mkSystemState cfgW []) [(upResult 1, clockW 1)] (by simp)⟩

/-- C2 counterexample: a monitor whose lastStatus is `unknown` receives a down
verdict and the pipeline creates no incident at all, because
updateMonitorWithResult only calls handleMonitorDown when the previous status
was `up` (wasUp), refuting the claim for the `unknown` case. -/
theorem unknown_to_down_creates_no_incident :
    (mkSystemState cfgW []).monitor.lastStatus = Status.unknown ∧
    (downResult 5).success = false ∧
    (updateMonitorWithResult (mkSystemState cfgW []) (downResult 5) (clockW 5)).incidents =
      [] :=
  ⟨rfl, rfl, rfl⟩

/-- C2 amended: for every monitor whose last status is `up` (but not
`unknown`: see the counterexample), a check producing a down verdict creates
exactly one new Incident with status `investigating`, startedAt equal to the
current time, and description equal to the verdict's failure reason when that
reason is a non-empty string. -/
theorem up_to_down_creates_incident (st : SystemState) (r : CheckResult) (c : Clock)
    (reason : String)
    (h1 : st.monitor.lastStatus = Status.up) (h2 : r.success = false)
    (h3 : r.error = some reason) (h4 : reason ≠ "") :
    (updateMonitorWithResult st r c).incidents =
      st.incidents ++ [downIncident st.cfg r c.now] ∧
    (downIncident st.cfg r c.now).status = IncidentStatus.investigating ∧
    (downIncident st.cfg r c.now).startedAt = c.now ∧
    (downIncident st.cfg r c.now).description = reason := by
  refine ⟨?_, rfl, rfl, ?_⟩
  · rw [uMWR_case_down st r c h1 h2, handleMonitorDown_incidents]
  · simp [downIncident, jsOrStr, h3, h4]

theorem up_to_down_creates_incident_witness :
    (stUpW.monitor.lastStatus = Status.up ∧ (downResult 5).success = false ∧
     (downResult 5).error = some "connect ECONNREFUSED" ∧
     "connect ECONNREFUSED" ≠ "") ∧
    ((updateMonitorWithResult stUpW (downResult 5) (clockW 5)).incidents =
       stUpW.incidents ++ [downIncident stUpW.cfg (downResult 5) (clockW 5).now] ∧
     (downIncident stUpW.cfg (downResult 5) (clockW 5).now).status =
       IncidentStatus.investigating ∧
     (downIncident stUpW.cfg (downResult 5) (clockW 5).now).startedAt = (clockW 5).now ∧
     (downIncident stUpW.cfg (downResult 5) (clockW 5).now).description =
       "connect ECONNREFUSED") :=
  ⟨⟨rfl, rfl, rfl, by decide⟩,
   up_to_down_creates_incident stUpW (downResult 5) (clockW 5) "connect ECONNREFUSED"
     rfl rfl rfl (by decide)⟩

theorem resolveFirstOpen_eq (msg : String) (now : Nat) (pre : List Incident) :
    ∀ (inc : Incident) (post : List Incident),
      (∀ j ∈ pre, isOpen j = false) → isOpen inc = true →
      resolveFirstOpen (pre ++ inc :: post) msg now =
        pre ++ Incident.resolve inc msg now :: post := by
  induction pre with
  | nil =>
    intro inc post _ hopen
    simp [resolveFirstOpen, hopen]
  | cons p ps ih =>
    intro inc post hclosed hopen
    have hp : isOpen p = false := hclosed p (by simp)
    simp only [List.cons_append, resolveFirstOpen, hp]
    simp only [Bool.false_eq_true, if_false, List.cons.injEq, true_and]
    exact ih inc post (fun j hj => hclosed j (by simp [hj])) hopen

/-- C3: for every monitor whose last status is down and that has an open
incident (the first open incident in its list), a check producing an up
verdict resolves exactly that incident: a `resolved` update is appended,
resolvedAt is set to the current time, duration is
Math.round((resolvedAt - startedAt) / 60000) minutes, and that value is
non-negative whenever the incident started no later than the resolving
check; all other incidents are untouched. -/
theorem down_to_up_resolves_incident (st : SystemState) (r : CheckResult) (c : Clock)
    (pre post : List Incident) (inc : Incident)
    (h1 : st.monitor.lastStatus = Status.down) (h2 : r.success = true)
    (hsplit : st.incidents = pre ++ inc :: post)
    (hpre : ∀ j ∈ pre, isOpen j = false) (hopen : isOpen inc = true)
    (hstart : inc.startedAt ≤ c.now) :
    (updateMonitorWithResult st r c).incidents =
      pre ++ ({ inc with
                status := IncidentStatus.resolved
                resolvedAt := some c.now
                duration := jsRound (((c.now : ℚ) - (inc.startedAt : ℚ)) / 60000)
                updates := inc.updates ++
                  [{ status := IncidentStatus.resolved,
                     message := "Monitor is back online",
                     timestamp := c.now, isPublic := true }] } : Incident) :: post ∧
    0 ≤ jsRound (((c.now : ℚ) - (inc.startedAt : ℚ)) / 60000) := by
  have h1' : st.monitor.lastStatus ≠ Status.up := by rw [h1]; intro hc; cases hc
  constructor
  · rw [uMWR_case_up st r c h1' h2, handleMonitorUp_incidents]
    show resolveFirstOpen st.incidents "Monitor is back online" c.now = _
    rw [hsplit, resolveFirstOpen_eq _ _ pre inc post hpre hopen]
    simp [Incident.resolve, Incident.addUpdate]
  · rw [jsRound, Int.le_floor]
    have hcast : (inc.startedAt : ℚ) ≤ (c.now : ℚ) := by exact_mod_cast hstart
    have hdiv : (0 : ℚ) ≤ ((c.now : ℚ) - (inc.startedAt : ℚ)) / 60000 := by
      apply div_nonneg <;> linarith
    push_cast
    linarith

def incW : Incident where
  type := "downtime"
  severity := "medium"
  title := "M is down"
  description := "connect ECONNREFUSED"
  startedAt := 1000
  resolvedAt := none
  duration := 0
  status := IncidentStatus.investigating
  updates := []

def stDownW : SystemState where
  cfg := cfgW
  monitor := { mkMonitorState with lastStatus := Status.down }
  incidents := [incW]
  alerts := []

theorem down_to_up_resolves_incident_witness :
    (stDownW.monitor.lastStatus = Status.down ∧ (upResult 121000).success = true ∧
     stDownW.incidents = [] ++ incW :: [] ∧ isOpen incW = true ∧
     incW.startedAt ≤ (clockW 121000).now) ∧
    ((updateMonitorWithResult stDownW (upResult 121000) (clockW 121000)).incidents =
       [] ++ ({ incW with
                status := IncidentStatus.resolved
                resolvedAt := some (clockW 121000).now
                duration := jsRound ((((clockW 121000).now : ℚ) - (incW.startedAt : ℚ)) / 60000)
                updates := incW.updates ++
                  [{ status := IncidentStatus.resolved,
                     message := "Monitor is back online",
                     timestamp := (clockW 121000).now, isPublic := true }] } : Incident) :: [] ∧
     0 ≤ jsRound ((((clockW 121000).now : ℚ) - (incW.startedAt : ℚ)) / 60000)) :=
  ⟨⟨rfl, rfl, rfl, rfl, by decide⟩,
   down_to_up_resolves_incident stDownW (upResult 121000) (clockW 121000) [] [] incW
     rfl rfl rfl (by intro j hj; cases hj) rfl (by decide)⟩

/-- C5: for every non-server monitor configured with expectedStatus = 200, a
probe exchange completing with HTTP status 500 yields verdict down with the
failure reason citing the received status (axios rejects the 500 response
because of `validateStatus: status < 500`, so the catch branch reports
"Request failed with status code 500"), regardless of the measured response
time — in particular the slow-response rule never replaces this reason. -/
theorem expected_200_probe_500_down (cfg : MonitorConfig) (p : PingExec) (rt now : Nat)
    (h1 : cfg.type ≠ MonitorType.server) (h2 : cfg.expectedStatus = some 200) :
    (performHealthCheck cfg ⟨p, HttpProbe.response 500 rt⟩ now).status = Status.down ∧
    (performHealthCheck cfg ⟨p, HttpProbe.response 500 rt⟩ now).error =
      some (axiosStatusMessage 500) ∧
    (performHealthCheck cfg ⟨p, HttpProbe.response 500 rt⟩ now).statusCode = 500 ∧
    containsSub (axiosStatusMessage 500) "500" = true := by
  cases htype : cfg.type
  case server => exact absurd htype h1
  case port =>
    refine ⟨?_, ?_, ?_, by decide⟩ <;>
      simp [performHealthCheck, htype, httpCatchResult]
  case website =>
    refine ⟨?_, ?_, ?_, by decide⟩ <;>
      simp [performHealthCheck, htype, httpHealthCheck, httpCatchResult]
  case api =>
    refine ⟨?_, ?_, ?_, by decide⟩ <;>
      simp [performHealthCheck, htype, httpHealthCheck, httpCatchResult]

theorem expected_200_probe_500_down_witness :
    (cfgW.type ≠ MonitorType.server ∧ cfgW.expectedStatus = some 200) ∧
    ((performHealthCheck cfgW ⟨PingExec.completed "" "" 0 none, HttpProbe.response 500 99999⟩
        0).status = Status.down ∧
     (performHealthCheck cfgW ⟨PingExec.completed "" "" 0 none, HttpProbe.response 500 99999⟩
        0).error = some (axiosStatusMessage 500) ∧
     (performHealthCheck cfgW ⟨PingExec.completed "" "" 0 none, HttpProbe.response 500 99999⟩
        0).statusCode = 500 ∧
     containsSub (axiosStatusMessage 500) "500" = true) :=
  ⟨⟨by decide, rfl⟩,
   expected_200_probe_500_down cfgW (PingExec.completed "" "" 0 none) 99999 0
     (by decide) rfl⟩

theorem append_ne_empty (s t : String) (h : s ≠ "") : s ++ t ≠ "" := by
  intro heq
  apply h
  have hl := congrArg String.length heq
  rw [String.length_append] at hl
  have h0 : s.length = 0 := by
    have hz : String.length "" = 0 := rfl
    omega
  cases s with
  | mk data =>
    cases data with
    | nil => rfl
    | cons c cs => simp [String.length] at h0

/-- A ping execution that the source classifies as a failure: a completed
exec whose output fails the success detection, or a thrown exec that the HTTP
HEAD fallback does not rescue (non-http(s) target, or the fallback request
itself failed). -/
def pingFailed (url : String) (ex : PingExec) : Prop :=
  match ex with
  | PingExec.completed stdout stderr _ _ => unixPingSuccess stdout stderr = false
  | PingExec.threw _ _ fallbackStatus _ =>
    (startsWithStr url "http://" || startsWithStr url "https://") = false ∨
    fallbackStatus = none

theorem pingServer_failed (url : String) (ex : PingExec) (h : pingFailed url ex) :
    (pingServer url ex).success = false ∧
    ∃ m, (pingServer url ex).error = some m ∧ m ≠ "" := by
  cases ex with
  | completed stdout stderr elapsed parsedTime =>
    have hfail : unixPingSuccess stdout stderr = false := h
    refine ⟨by simp [pingServer, hfail], ?_⟩
    refine ⟨if stderr = "" then "Ping failed - no response received" else stderr,
      by simp [pingServer, hfail], ?_⟩
    by_cases hs : stderr = "" <;> simp [hs]
  | threw message elapsed fallbackStatus fallbackElapsed =>
    have hmsg : (if message = "" then "Unknown ping error" else message) ≠ "" := by
      by_cases hm : message = "" <;> simp [hm]
    cases hurl : startsWithStr url "http://" || startsWithStr url "https://"
    · exact ⟨by simp [pingServer, hurl],
        ⟨if message = "" then "Unknown ping error" else message,
         by simp [pingServer, hurl], hmsg⟩⟩
    · have hfb : fallbackStatus = none := by
        rcases h with h | h
        · rw [hurl] at h; cases h
        · exact h
      exact ⟨by simp [pingServer, hurl, hfb],
        ⟨if message = "" then "Unknown ping error" else message,
         by simp [pingServer, hurl, hfb], hmsg⟩⟩

/-- A probe outcome the spec lists as a failure mode: for a server monitor a
failed ping; for the HTTP-based monitor types an exception thrown inside the
request (DNS failure, connection refused, timeout, TLS error, ...) with its
non-empty error message. -/
def probeFailure (cfg : MonitorConfig) (env : ProbeEnv) : Prop :=
  match cfg.type with
  | MonitorType.server => pingFailed cfg.url env.ping
  | _ => ∃ msg rt, env.http = HttpProbe.networkError msg rt ∧ msg ≠ ""

/-- C8: performHealthCheck is a total function from configurations and probe
outcomes to CheckResults (no exception escapes its try/catch boundary), and
every probe failure mode is reported as a normal CheckResult with verdict
down and a non-empty descriptive error reason. -/
theorem probe_failure_yields_down (cfg : MonitorConfig) (env : ProbeEnv) (now : Nat)
    (h : probeFailure cfg env) :
    (performHealthCheck cfg env now).status = Status.down ∧
    ∃ m, (performHealthCheck cfg env now).error = some m ∧ m ≠ "" := by
  cases htype : cfg.type
  case server =>
    have hping : pingFailed cfg.url env.ping := by
      rw [probeFailure, htype] at h; exact h
    obtain ⟨hfail, m, herr, hm⟩ := pingServer_failed cfg.url env.ping hping
    cases hert : jsOptNat cfg.expectedResponseTime with
    | none =>
      refine ⟨?_, ⟨m, ?_, hm⟩⟩ <;> simp [performHealthCheck, htype, hert, hfail, herr]
    | some ert =>
      by_cases hslow : (pingServer cfg.url env.ping).responseTime > ert
      · refine ⟨?_, ?_⟩
        · simp [performHealthCheck, htype, hert, hslow, hfail]
        · refine ⟨"Response time " ++ toString (pingServer cfg.url env.ping).responseTime ++
            "ms exceeds expected " ++ toString ert ++ "ms", ?_, ?_⟩
          · simp [performHealthCheck, htype, hert, hslow, hfail]
          · exact append_ne_empty _ _ (append_ne_empty _ _ (append_ne_empty _ _
              (append_ne_empty _ _ (by decide))))
      · refine ⟨?_, ⟨m, ?_, hm⟩⟩ <;>
          simp [performHealthCheck, htype, hert, hslow, hfail, herr]
  case port =>
    rw [probeFailure, htype] at h
    obtain ⟨msg, rt, hhttp, hm⟩ := h
    refine ⟨?_, ⟨msg, ?_, hm⟩⟩ <;>
      simp [performHealthCheck, htype, hhttp, httpCatchResult]
  case website =>
    rw [probeFailure, htype] at h
    obtain ⟨msg, rt, hhttp, hm⟩ := h
    refine ⟨?_, ⟨msg, ?_, hm⟩⟩ <;>
      simp [performHealthCheck, htype, httpHealthCheck, hhttp, httpCatchResult]
  case api =>
    rw [probeFailure, htype] at h
    obtain ⟨msg, rt, hhttp, hm⟩ := h
    refine ⟨?_, ⟨msg, ?_, hm⟩⟩ <;>
      simp [performHealthCheck, htype, httpHealthCheck, hhttp, httpCatchResult]

def cfgServerW : MonitorConfig where
  name := "S"
  url := "db.internal"
  type := MonitorType.server
  expectedStatus := some 200
  expectedResponseTime := some 5000
  timeout := 30

def envDnsFailW : ProbeEnv where
  ping := PingExec.threw "getaddrinfo ENOTFOUND db.internal" 5000 none 0
  http := HttpProbe.networkError "getaddrinfo ENOTFOUND db.internal" 5000

theorem probe_failure_yields_down_witness :
    probeFailure cfgServerW envDnsFailW ∧
    ((performHealthCheck cfgServerW envDnsFailW 0).status = Status.down ∧
     ∃ m, (performHealthCheck cfgServerW envDnsFailW 0).error = some m ∧ m ≠ "") :=
  ⟨Or.inl (by decide),
   probe_failure_yields_down cfgServerW envDnsFailW 0 (Or.inl (by decide))⟩

/-- C9 counterexample: after recording response times 1 and 2 on a fresh
monitor, the stored averageResponseTime is 2, while the claim's exact
rational formula (previousAverage * (n - 1) + newResponseTime) / n evaluates
to 3/2: updateStats applies Math.round, so the average is not the exact
rational value. -/
theorem average_not_exact_rational :
    (updateStats (updateStats mkMonitorState true 1 200 10) true 2 200 20).averageResponseTime
      = 2 ∧
    ((updateStats (updateStats mkMonitorState true 1 200 10) true 2 200
        20).averageResponseTime : ℚ) ≠
      (((updateStats mkMonitorState true 1 200 10).averageResponseTime : ℚ) *
          (((updateStats (updateStats mkMonitorState true 1 200 10) true 2 200
              20).totalChecks : ℚ) - 1) + 2) /
        ((updateStats (updateStats mkMonitorState true 1 200 10) true 2 200
            20).totalChecks : ℚ) := by
  have h1 : (updateStats mkMonitorState true 1 200 10).averageResponseTime = 1 := rfl
  have h2 : (updateStats (updateStats mkMonitorState true 1 200 10) true 2 200
      20).averageResponseTime = 2 := rfl
  have h3 : (updateStats (updateStats mkMonitorState true 1 200 10) true 2 200
      20).totalChecks = 2 := rfl
  refine ⟨h2, ?_⟩
  rw [h1, h2, h3]
  norm_num

theorem roundHalfUpNat_eq_floor (num den : ℕ) (h : 0 < den) :
    roundHalfUpNat num den = ⌊(num : ℚ) / (den : ℚ) + 1/2⌋₊ := by
  have hd : (den : ℚ) ≠ 0 := by positivity
  have hcast : (num : ℚ) / (den : ℚ) + 1/2 =
      ((2 * num + den : ℕ) : ℚ) / ((2 * den : ℕ) : ℚ) := by
    push_cast
    field_simp
    ring
  rw [roundHalfUpNat, hcast, Nat.floor_div_nat, Nat.floor_natCast]

/-- C9 amended: on every check, updateStats sets the running average response
time to Math.round of (storedAverage * (n - 1) + newResponseTime) / n — the
nearest integer (half rounded up) to the claim's rational formula, compounded
on the previously rounded stored value — rather than the exact rational. -/
theorem averageResponseTime_is_rounded (m : MonitorState) (b : Bool) (rt sc t : Nat) :
    (updateStats m b rt sc t).averageResponseTime =
      ⌊((m.averageResponseTime * m.totalChecks + rt : ℕ) : ℚ) /
          ((m.totalChecks + 1 : ℕ) : ℚ) + 1/2⌋₊ := by
  show roundHalfUpNat (m.averageResponseTime * (m.totalChecks + 1 - 1) + rt)
      (m.totalChecks + 1) = _
  rw [Nat.add_sub_cancel]
  exact roundHalfUpNat_eq_floor _ _ (Nat.succ_pos _)

def alertW : Alert where
  name := "A"
  type := AlertType.downtime
  conditions :=
    { downtimeThreshold := 2
      responseTimeThreshold := 5000
      sslExpiryDays := 30
      customCondition := CustomCondition.status_code
      customValue := none
      customOperator := CustomOperator.equals }
  emailChannel := { enabled := true, recipients := ["ops@example.com"] }
  schedule :=
    { enabled := false
      timezone := "UTC"
      days := []
      startTime := none
      endTime := none }
  status := AlertStatus.active
  lastTriggered := none
  triggerCount := 0
  history := []

def checksW : List (CheckResult × Clock) :=
  [(upResult 1, clockW 1), (downResult 2, clockW 2),
   (downResult 3, clockW 3), (downResult 4, clockW 4)]

/-- C6: evaluation of the code at the failing input.  An active downtime
alert with downtimeThreshold = 2 is attached to a monitor that goes up, then
fails three consecutive checks.  checkDowntimeCondition itself holds for
consecutiveFailures = 2 (first conjunct, matching the claim), but the
pipeline never fires the alert (triggerCount stays 0 and the history stays
empty): triggerAlerts hardcodes consecutiveFailures to 1 on the down
transition, and down-to-down repeats never reach the alert evaluation, so a
threshold of two consecutive failures can never be met. -/
theorem downtime_threshold_never_fires :
    Alert.checkDowntimeCondition alertW
      { lastStatus := Status.down, lastResponseTime := 0, lastStatusCode := 0,
        consecutiveFailures := 2, consecutiveSuccesses := 0,
        sslExpiry := none, lastResponseSize := none, lastResponseContent := none } = true ∧
    (runChecks (mkSystemState cfgW [alertW]) checksW).alerts.map
      (fun a => (a.triggerCount, a.history.length)) = [(0, 0)] := by
  refine ⟨by decide, ?_⟩
  rfl

/-- C7 counterexample: an alert firing whose email dispatch fails.  The email
channel is dispatched (with the failing outcome) and the pipeline returns
normally, but the alert's history entry for the firing carries
success = true and no error: the entry is written by Alert.trigger before any
dispatch and no code path records a dispatch failure.  Moreover
getActiveChannels can only ever produce the single email channel, so a firing
with multiple enabled channels cannot occur at all. -/
theorem dispatch_failure_not_recorded :
    (triggerAlertDispatch alertW "M" (Except.error "SMTP connection refused")
        (Except.error "whatsapp unavailable") 1000).2 =
      [("email", Except.error "SMTP connection refused")] ∧
    ((triggerAlertDispatch alertW "M" (Except.error "SMTP connection refused")
        (Except.error "whatsapp unavailable") 1000).1.history.map
      fun e => (e.success, e.error)) = [(true, (none : Option String))] ∧
    (Alert.getActiveChannels alertW).length = 1 :=
  ⟨rfl, rfl, rfl⟩

theorem getActiveChannels_email (a : Alert) (h1 : a.emailChannel.enabled = true)
    (h2 : a.emailChannel.recipients ≠ []) : a.getActiveChannels = ["email"] := by
  have hlen : 0 < a.emailChannel.recipients.length := List.length_pos.mpr h2
  simp [Alert.getActiveChannels, h1, hlen]

theorem getLast_truncate (l : List HistoryEntry) (x : HistoryEntry) :
    (if (l ++ [x]).length > 100 then ((l ++ [x]).drop ((l ++ [x]).length - 100))
     else l ++ [x]).getLast? = some x := by
  by_cases h : (l ++ [x]).length > 100
  · rw [if_pos h]
    have hn : (l ++ [x]).length - 100 ≤ l.length := by
      rw [List.length_append]
      simp
    rw [List.drop_append_of_le_length hn, List.getLast?_concat]
  · rw [if_neg h, List.getLast?_concat]

/-- C7 amended: for every alert firing, every active channel is dispatched to
its collaborator with best-effort settlement — a failing outcome on one
channel neither removes the dispatch of any channel nor aborts the pipeline
(the dispatcher is a total function of the outcomes) — but the failure is
NOT recorded in the alert's history: the single history entry appended for
the firing always has success = true and no error, because Alert.trigger
writes it before dispatch and nothing updates it afterwards.  Only the email
channel can be active in the current Alert schema. -/
theorem dispatch_failure_best_effort (a : Alert) (monitorName : String)
    (dE dW : Except String Unit) (now : Nat)
    (h1 : a.emailChannel.enabled = true) (h2 : a.emailChannel.recipients ≠ []) :
    (triggerAlertDispatch a monitorName dE dW now).2 = [("email", dE)] ∧
    ∃ entry, (triggerAlertDispatch a monitorName dE dW now).1.history.getLast? = some entry ∧
      entry.success = true ∧ entry.error = none := by
  have hch := getActiveChannels_email a h1 h2
  constructor
  · simp [triggerAlertDispatch, Alert.trigger, hch]
  · unfold triggerAlertDispatch Alert.trigger
    dsimp only
    exact ⟨_, getLast_truncate a.history _, rfl, rfl⟩

theorem dispatch_failure_best_effort_witness :
    (alertW.emailChannel.enabled = true ∧ alertW.emailChannel.recipients ≠ []) ∧
    ((triggerAlertDispatch alertW "M" (Except.error "SMTP connection refused")
        (Except.ok ()) 1000).2 = [("email", Except.error "SMTP connection refused")] ∧
     ∃ entry, (triggerAlertDispatch alertW "M" (Except.error "SMTP connection refused")
         (Except.ok ()) 1000).1.history.getLast? = some entry ∧
       entry.success = true ∧ entry.error = none) :=
  ⟨⟨rfl, by decide⟩,
   dispatch_failure_best_effort alertW "M" (Except.error "SMTP connection refused")
     (Except.ok ()) 1000 rfl (by decide)⟩
